import Mathlib

/-!
Verification of the sheet-data builder and spreadsheet orchestration of the
google-sheets-backend repository. The definitions below are a shallow
embedding of `src/src/services/sheetsService.js`; line numbers in the doc
comments refer to that file. JavaScript records are modelled as Lean
structures whose optional string properties are `Option String` (`none` for
an absent property, `some ""` for a present-but-falsy one); numeric payment
amounts are modelled by their decimal string, which renders identically
inside the template literals the code uses.
-/

set_option autoImplicit false

namespace GSheets

/-- Spreadsheet cell values produced by the data builder: strings, numbers
(the serial-number column) or a locale-formatted timestamp display
(`new Date(raw).toLocaleString('en-IN')`), kept abstract as the raw timestamp
it formats. -/
inductive Cell where
  | str (s : String)
  | num (n : Nat)
  | dateFmt (raw : String)
deriving DecidableEq, Inhabited

/-- A JavaScript value stored for a registration's custom field: null, a
string, or an array of strings (checkbox fields). Absence (`undefined`) is
modelled by `Option` at the lookup site. -/
inductive CFValue where
  | vNull
  | vStr (s : String)
  | vList (xs : List String)
deriving DecidableEq, Inhabited

/-- One entry of a team registration's `team_members` array (fields read by
`populateTeamMembersSheet`, lines 1151-1160). -/
structure TeamMember where
  name : Option String := none
  rollNumber : Option String := none
  scholar_id : Option String := none
  department : Option String := none
  year : Option String := none
deriving DecidableEq, Inhabited

/-- A registration's `additional_info` object. -/
structure AdditionalInfo where
  department : Option String := none
  year : Option String := none
  team_name : Option String := none
  team_members : Option (List TeamMember) := none
  custom_fields : Option (List (String × CFValue)) := none
deriving DecidableEq, Inhabited

/-- A registration record, with the properties the service reads. -/
structure Registration where
  participant_name : Option String := none
  participant_email : Option String := none
  participant_phone : Option String := none
  participant_student_id : Option String := none
  participant_id : Option String := none
  participant_department : Option String := none
  participant_year : Option String := none
  registration_type : Option String := none
  status : Option String := none
  attendance_status : Option String := none
  attendance_timestamp : Option String := none
  created_at : Option String := none
  payment_status : Option String := none
  payment_amount : Option String := none
  payment_screenshot_url : Option String := none
  additional_info : Option AdditionalInfo := none
deriving DecidableEq, Inhabited

/-- A JavaScript value found in an event's `custom_fields` array: either not
an object (null, a string literal, a number, ...) or an object whose `id` and
`label` properties are absent or non-string (`none`) or a string (`some`). -/
inductive CFEntry where
  | nonObj
  | obj (id : Option String) (label : Option String)
deriving DecidableEq, Inhabited

/-- An event record, with the properties the service reads. -/
structure EventData where
  title : Option String := none
  custom_fields : Option (List CFEntry) := none
  payment_required : Bool := false
  requires_payment : Bool := false
  payment_amount : Option String := none
  participation_type : Option String := none
deriving DecidableEq, Inhabited

/-- The builder's result: `{headers, rows}`. -/
structure SheetData where
  headers : List String
  rows : List (List Cell)
deriving DecidableEq

/-- JavaScript truthiness of an optional string property (absent and `""` are
falsy). -/
def truthy : Option String → Bool
  | some s => s != ""
  | none => false

/-- JavaScript `v || d` for an optional string `v` and string default `d`. -/
def jsOr (v : Option String) (d : String) : String :=
  match v with
  | some s => if s = "" then d else s
  | none => d

/-- The validity filter applied to each `custom_fields` entry inside
`prepareSheetData` (lines 430-451): the entry must be an object with a
non-empty string `id` and a non-empty string `label`. -/
def cfValid : CFEntry → Bool
  | .nonObj => false
  | .obj i l => truthy i && truthy l

/-- The `label` property of a custom-field entry (empty when absent). -/
def cfLabel : CFEntry → String
  | .obj _ (some l) => l
  | _ => ""

/-- The `id` property of a custom-field entry (empty when absent). -/
def cfId : CFEntry → String
  | .obj (some i) _ => i
  | _ => ""

/-- `customFields`: the filtered valid custom-field definitions (lines
424-461); a missing `custom_fields` property yields the empty list. -/
def validCFs (e : EventData) : List CFEntry :=
  match e.custom_fields with
  | some cfs => cfs.filter cfValid
  | none => []

/-- Lines 469-482: some registration carries a payment-related field. -/
def hasPaymentInfo (regs : List Registration) : Bool :=
  regs.any fun r =>
    truthy r.payment_screenshot_url || truthy r.payment_status ||
      truthy r.payment_amount

/-- Line 487: `eventData.payment_required || eventData.requires_payment`. -/
def paymentRequiredFlag (e : EventData) : Bool :=
  e.payment_required || e.requires_payment

/-- Line 531: the payment columns are emitted when some registration has
payment data or the event requires payment. -/
def paymentRelevant (e : EventData) (regs : List Registration) : Bool :=
  hasPaymentInfo regs || paymentRequiredFlag e

/-- The 12 fixed header columns (lines 494-507; identical list in the
empty-registrations path, lines 385-398). -/
def coreHeaders : List String :=
  ["S.No.", "Name", "Email", "Phone", "Student ID", "Department", "Year",
   "Registration Type", "Registration Status", "Attendance Status",
   "Attendance Time", "Registration Date"]

/-- The simplified payment header columns (lines 532 and 411). -/
def payHeaders : List String :=
  ["Payment Verified", "Payment Amount", "Payment Screenshot"]

/-- Lines 511-524: the header cell contributed by one (already filtered)
custom-field entry at index `i`; a falsy or non-string label would fall back
to a generated placeholder. -/
def cfHeaderCell (i : Nat) (f : CFEntry) : String :=
  match f with
  | .obj _ (some l) => if l = "" then "Custom Field " ++ toString (i + 1) else l
  | _ => "Custom Field " ++ toString (i + 1)

/-- The custom-field header block, indexed from `i` (the forEach of line
511). -/
def cfHeadersFrom : Nat → List CFEntry → List String
  | _, [] => []
  | i, f :: fs => cfHeaderCell i f :: cfHeadersFrom (i + 1) fs

/-- `reg.additional_info?.custom_fields?.[field.id]` (line 598); `none`
models JavaScript `undefined`. -/
def lookupCF (r : Registration) (fid : String) : Option CFValue :=
  match r.additional_info with
  | none => none
  | some ai =>
    match ai.custom_fields with
    | none => none
    | some kvs => kvs.lookup fid

/-- Lines 604-620: display text of a looked-up custom-field value. -/
def cfDisplay : Option CFValue → String
  | none => "N/A"
  | some .vNull => "N/A"
  | some (.vStr s) => if s = "" then "N/A" else s
  | some (.vList xs) => if xs.isEmpty then "N/A" else String.intercalate ", " xs

/-- Lines 586-627: the row cell for one custom-field entry (with the extra
falsy-id guard of lines 589-593). -/
def cfCell (r : Registration) (f : CFEntry) : String :=
  match f with
  | .obj (some fid) _ => if fid = "" then "N/A" else cfDisplay (lookupCF r fid)
  | _ => "N/A"

/-- Lines 561-568: `'N/A'` for a falsy timestamp, else the locale-formatted
display. -/
def attendanceTimeCell (r : Registration) : Cell :=
  match r.attendance_timestamp with
  | some ts => if ts = "" then Cell.str "N/A" else Cell.dateFmt ts
  | none => Cell.str "N/A"

/-- Line 582: `reg.created_at ? new Date(...).toLocaleString(...) : 'N/A'`. -/
def createdAtCell (r : Registration) : Cell :=
  match r.created_at with
  | some ts => if ts = "" then Cell.str "N/A" else Cell.dateFmt ts
  | none => Cell.str "N/A"

/-- Line 579: `reg.status === 'registered' ? 'Confirmed' : (reg.status ||
'Confirmed')`. -/
def statusCell (r : Registration) : String :=
  if r.status = some "registered" then "Confirmed" else jsOr r.status "Confirmed"

/-- Line 580. -/
def attendanceStatusCell (r : Registration) : String :=
  if r.attendance_status = some "attended" then "Attended" else "Not Attended"

/-- `reg.additional_info?.department`. -/
def aiDepartment (r : Registration) : Option String :=
  match r.additional_info with
  | some ai => ai.department
  | none => none

/-- `reg.additional_info?.year`. -/
def aiYear (r : Registration) : Option String :=
  match r.additional_info with
  | some ai => ai.year
  | none => none

/-- The 12 fixed row cells (lines 570-583). -/
def coreCells (i : Nat) (r : Registration) : List Cell :=
  [Cell.num (i + 1),
   Cell.str (jsOr r.participant_name "N/A"),
   Cell.str (jsOr r.participant_email "N/A"),
   Cell.str (jsOr r.participant_phone "N/A"),
   Cell.str (jsOr r.participant_student_id (jsOr r.participant_id "N/A")),
   Cell.str (jsOr r.participant_department (jsOr (aiDepartment r) "N/A")),
   Cell.str (jsOr r.participant_year (jsOr (aiYear r) "N/A")),
   Cell.str (jsOr r.registration_type "Individual"),
   Cell.str (statusCell r),
   Cell.str (attendanceStatusCell r),
   attendanceTimeCell r,
   createdAtCell r]

/-- Lines 634-639: payment verification cell. -/
def payVerifiedCell (r : Registration) : String :=
  if r.payment_status = some "verified" then "Yes" else "No"

/-- Lines 649-651: event-level fallback for the payment amount. -/
def payAmountFromEvent (e : EventData) : String :=
  match e.payment_amount with
  | some a => if a = "" then "N/A" else "₹" ++ a
  | none => "N/A"

/-- Lines 644-654: payment amount cell with currency prefix. -/
def payAmountCell (e : EventData) (r : Registration) : String :=
  match r.payment_amount with
  | some a => if a = "" then payAmountFromEvent e else "₹" ++ a
  | none => payAmountFromEvent e

/-- Lines 656-664: screenshot URL cell. -/
def payScreenshotCell (r : Registration) : String :=
  match r.payment_screenshot_url with
  | some u => if u = "" ∨ u = "N/A" then "N/A" else u
  | none => "N/A"

/-- Lines 631-670: the three payment cells, emitted only when payment is
relevant. -/
def payCells (e : EventData) (pay : Bool) (r : Registration) : List Cell :=
  if pay then
    [Cell.str (payVerifiedCell r), Cell.str (payAmountCell e r),
     Cell.str (payScreenshotCell r)]
  else []

/-- Lines 545-556: the per-row try-block throws exactly when the participant
name or email is missing or empty (the registration being a record, the
not-an-object throw of line 547 is unreachable). -/
def okReg (r : Registration) : Bool :=
  truthy r.participant_name && truthy r.participant_email

/-- A normally processed data row (lines 570-675). -/
def buildRowOk (e : EventData) (cfs : List CFEntry) (pay : Bool) (i : Nat)
    (r : Registration) : List Cell :=
  coreCells i r ++ cfs.map (fun f => Cell.str (cfCell r f))
    ++ payCells e pay r ++ [Cell.str ""]

/-- The error-placeholder row emitted by the per-row catch (lines 676-701):
10 fixed cells, one ERROR per valid custom field, three payment ERROR cells
when payment is relevant, and a trailing marker. -/
def errorRow (cfs : List CFEntry) (pay : Bool) (i : Nat)
    (r : Registration) : List Cell :=
  [Cell.num (i + 1),
   Cell.str (jsOr r.participant_name "N/A"),
   Cell.str (jsOr r.participant_email "N/A")]
  ++ List.replicate 7 (Cell.str "ERROR")
  ++ cfs.map (fun _ => Cell.str "ERROR")
  ++ (if pay then List.replicate 3 (Cell.str "ERROR") else [])
  ++ [Cell.str "Processing Error"]

/-- One row of the grid: the normal row, or the error row when the per-row
try-block threw. -/
def buildRow (e : EventData) (cfs : List CFEntry) (pay : Bool) (i : Nat)
    (r : Registration) : List Cell :=
  if okReg r then buildRowOk e cfs pay i r else errorRow cfs pay i r

/-- The `registrations.map((reg, index) => ...)` of line 542, carrying the
running index. -/
def buildRows (e : EventData) (cfs : List CFEntry) (pay : Bool) :
    Nat → List Registration → List (List Cell)
  | _, [] => []
  | i, r :: rs => buildRow e cfs pay i r :: buildRows e cfs pay (i + 1) rs

/-- Lines 401-407: in the empty-registrations path a custom-field entry
contributes its label as a header when the entry and its `label` are truthy —
no `id` and no `typeof` check. -/
def emptyKeepLabel : CFEntry → Option String
  | .obj _ (some l) => if l = "" then none else some l
  | _ => none

/-- The header list of the empty-registrations path (lines 381-419). -/
def emptyHeaders (e : EventData) : List String :=
  coreHeaders
  ++ (match e.custom_fields with
      | some cfs => cfs.filterMap emptyKeepLabel
      | none => [])
  ++ (if paymentRequiredFlag e then payHeaders else [])
  ++ ["Notes"]

/-- Shallow embedding of `prepareSheetData` (lines 355-720) on well-typed
inputs. Every throw in the body is then unreachable or caught by the per-row
catch, so the builder is a total function. -/
def prepareSheetData (e : EventData) (regs : List Registration) : SheetData :=
  if regs.isEmpty then
    { headers := emptyHeaders e, rows := [] }
  else
    let cfs := validCFs e
    let pay := paymentRelevant e regs
    { headers := coreHeaders ++ cfHeadersFrom 0 cfs
        ++ (if pay then payHeaders else []) ++ ["Notes"],
      rows := buildRows e cfs pay 0 regs }

/-- The `registrations` argument as received over the wire: absent, a
non-array value, or an array of registration records. -/
inductive RegsArg where
  | missing
  | notArray
  | arr (rs : List Registration)
deriving DecidableEq

/-- Entry validation of `prepareSheetData` (lines 369-378): an absent event
or a non-array registrations argument throws; otherwise the builder runs (and,
its body being total on record inputs, returns). -/
def prepareSheetDataE (ev : Option EventData) (regs : RegsArg) :
    Except String SheetData :=
  match ev with
  | none => .error "Event data is required"
  | some e =>
    match regs with
    | .missing => .error "Registrations must be an array"
    | .notArray => .error "Registrations must be an array"
    | .arr rs => .ok (prepareSheetData e rs)

/-- Lines 42-59: the strict custom-field validation of `createEventSheet`
passes when every entry of a present `custom_fields` array is an object with
non-empty string `id` and `label`. -/
def cfStrictOk (e : EventData) : Bool :=
  match e.custom_fields with
  | some cfs => cfs.all cfValid
  | none => true

/-- The pre-remote prefix of `createEventSheet` (lines 26-67): structural
validation, strict custom-field validation, and the builder dry-run (which in
the embedding always succeeds, `prepareSheetData` being total). -/
def createEventSheetValidate (ev : Option EventData) (regs : RegsArg)
    (isAutoCreate : Bool) : Except String Unit :=
  match ev with
  | none => .error "Event data is required but was not provided"
  | some e =>
    if truthy e.title then
      match regs with
      | .missing => .error "Registrations must be provided as an array"
      | .notArray => .error "Registrations must be provided as an array"
      | .arr rs =>
        if rs.isEmpty && !isAutoCreate then
          .error "Cannot create sheet with no registrations"
        else if cfStrictOk e then .ok ()
        else .error "Custom field validation failed"
    else .error "Event title is required but was not provided"

/-- Lines 70-72: some registration carries a non-empty `team_members` list. -/
def hasTeamRegistrations (regs : List Registration) : Bool :=
  regs.any fun r =>
    match r.additional_info with
    | some ai =>
      match ai.team_members with
      | some tm => tm.length != 0
      | none => false
    | none => false

/-- Line 75: the event's participation mode permits teams. -/
def supportsTeamRegistration (e : EventData) : Bool :=
  e.participation_type == some "team" || e.participation_type == some "both"

/-- Titles of the tabs requested in the spreadsheets.create call (lines
69-124): Registrations and Dashboard always; Team Members spliced in at index
1 when team data exists or the participation mode permits teams. -/
def requestedSheetTitles (e : EventData) (regs : List Registration) :
    List String :=
  if supportsTeamRegistration e || hasTeamRegistrations regs then
    ["Registrations", "Team Members", "Dashboard"]
  else
    ["Registrations", "Dashboard"]

/-- Model of the Registrations tab's value grid: a row-major list of rows. -/
abbrev Grid := List (List Cell)

/-- The title-row string written by `updateEventSheet` (line 275); an absent
event title templates as the text `"undefined"` in JavaScript. -/
def titleString (e : EventData) : String :=
  (match e.title with
   | some t => t
   | none => "undefined") ++ " - Event Registrations"

/-- The value block written by `updateEventSheet` (lines 274-279): title row,
empty row, header row, then the freshly built data rows. -/
def allDataOf (e : EventData) (regs : List Registration) : Grid :=
  [Cell.str (titleString e)]
  :: []
  :: ((prepareSheetData e regs).headers.map Cell.str)
  :: (prepareSheetData e regs).rows

/-- Blank the first `n` cells of a row (a cleared cell holds the empty
value). -/
def blankTo : Nat → List Cell → List Cell
  | _, [] => []
  | 0, r => r
  | n + 1, _ :: cs => Cell.str "" :: blankTo n cs

/-- values.clear on range `Registrations!A4:Z` (lines 268-271): rows 1-3 are
kept, every later row is blanked in columns A-Z (its first 26 cells). -/
def clearFromRowIdx : Nat → Grid → Grid
  | _, [] => []
  | 0, r :: rs => blankTo 26 r :: clearFromRowIdx 0 rs
  | n + 1, r :: rs => r :: clearFromRowIdx n rs

/-- The clear call of lines 268-271. -/
def clearDataRegion (g : Grid) : Grid := clearFromRowIdx 3 g

/-- values.update writes the provided cells of a provided row and leaves the
rest of the old row untouched. -/
def overlayRow (old upd : List Cell) : List Cell :=
  upd ++ old.drop upd.length

/-- values.update starting at A1: each provided row is overlaid onto the
corresponding old row; rows past the provided block are untouched. -/
def overlayGrid : Grid → Grid → Grid
  | g, [] => g
  | [], v :: vs => v :: overlayGrid [] vs
  | r :: rs, v :: vs => overlayRow r v :: overlayGrid rs vs

/-- Effect of `updateEventSheet` (lines 260-288) on the Registrations tab
grid: clear the data region from row 4 down, then write the title row, blank
row, header row and new data rows starting at A1. -/
def updateEventSheetGrid (g : Grid) (e : EventData)
    (regs : List Registration) : Grid :=
  overlayGrid (clearDataRegion g) (allDataOf e regs)

/-- Modelled from the claim wording of C6: the structural-input conditions
alone (event present, truthy title, registrations an array, non-empty unless
auto-create). -/
def structuralInputsOk (ev : Option EventData) (regs : RegsArg)
    (isAutoCreate : Bool) : Bool :=
  match ev with
  | none => false
  | some e =>
    truthy e.title &&
      match regs with
      | .arr rs => !rs.isEmpty || isAutoCreate
      | _ => false

/-- The rendering of a custom-field value asserted by claim C8: "N/A" when
the value is absent, null or the empty string; the comma-joined elements when
the value is a list. -/
def cfRenderClaim : Option CFValue → String
  | none => "N/A"
  | some .vNull => "N/A"
  | some (.vStr s) => if s = "" then "N/A" else s
  | some (.vList xs) => String.intercalate ", " xs

/-- The amended rendering: as claim C8 states it, except that an empty list
also renders "N/A" (matching lines 610-615). -/
def cfRenderAmended : Option CFValue → String
  | none => "N/A"
  | some .vNull => "N/A"
  | some (.vStr s) => if s = "" then "N/A" else s
  | some (.vList xs) => if xs.isEmpty then "N/A" else String.intercalate ", " xs

/-! ### List helpers -/

theorem getD_append_left {α : Type} (xs ys : List α) (k : Nat) (d : α)
    (h : k < xs.length) : (xs ++ ys).getD k d = xs.getD k d := by
  induction xs generalizing k with
  | nil => simp at h
  | cons x t ih =>
    cases k with
    | zero => rfl
    | succ k =>
      simp only [List.cons_append, List.getD_cons_succ]
      exact ih k (by simpa using h)

theorem getD_append_right {α : Type} (xs ys : List α) (k : Nat) (d : α) :
    (xs ++ ys).getD (xs.length + k) d = ys.getD k d := by
  induction xs with
  | nil => simp
  | cons x t ih =>
    rw [show (x :: t).length + k = (t.length + k) + 1 by simp; omega]
    simpa [List.getD_cons_succ] using ih

theorem getD_map_of_lt {α β : Type} (f : α → β) (l : List α) (k : Nat)
    (d : β) (d₂ : α) (h : k < l.length) :
    (l.map f).getD k d = f (l.getD k d₂) := by
  induction l generalizing k with
  | nil => simp at h
  | cons x t ih =>
    cases k with
    | zero => rfl
    | succ k =>
      simp only [List.map_cons, List.getD_cons_succ]
      exact ih k (by simpa using h)

theorem take_len_append {α : Type} (xs ys : List α) :
    (xs ++ ys).take xs.length = xs := by
  induction xs with
  | nil => rfl
  | cons x t ih => simpa [List.cons_append] using ih

/-! ### Structural lemmas about the builder -/

theorem coreHeaders_length : coreHeaders.length = 12 := rfl

theorem coreCells_length (i : Nat) (r : Registration) :
    (coreCells i r).length = 12 := rfl

theorem payCells_length (e : EventData) (pay : Bool) (r : Registration) :
    (payCells e pay r).length = if pay then 3 else 0 := by
  cases pay <;> rfl

theorem cfHeadersFrom_length (l : List CFEntry) (n : Nat) :
    (cfHeadersFrom n l).length = l.length := by
  induction l generalizing n with
  | nil => rfl
  | cons f fs ih => simp [cfHeadersFrom, ih]

theorem cfHeadersFrom_of_valid (l : List CFEntry) (n : Nat)
    (h : ∀ f ∈ l, cfValid f = true) : cfHeadersFrom n l = l.map cfLabel := by
  induction l generalizing n with
  | nil => rfl
  | cons f fs ih =>
    have hf : cfValid f = true := h f (by simp)
    have hlab : cfHeaderCell n f = cfLabel f := by
      cases f with
      | nonObj => simp [cfValid] at hf
      | obj i l =>
        cases l with
        | none => simp [cfValid, truthy] at hf
        | some s =>
          have hs : s ≠ "" := by
            simp [cfValid, truthy] at hf
            simpa using hf.2
          simp [cfHeaderCell, cfLabel, hs]
    simp [cfHeadersFrom, hlab, ih _ fun f hf => h f (by simp [hf])]

theorem mem_validCFs_valid {e : EventData} {f : CFEntry}
    (h : f ∈ validCFs e) : cfValid f = true := by
  unfold validCFs at h
  cases hcf : e.custom_fields with
  | none => simp [hcf] at h
  | some cfs =>
    rw [hcf] at h
    exact (List.mem_filter.mp h).2

theorem buildRows_length (e : EventData) (cfs : List CFEntry) (pay : Bool)
    (regs : List Registration) (n : Nat) :
    (buildRows e cfs pay n regs).length = regs.length := by
  induction regs generalizing n with
  | nil => rfl
  | cons r rs ih => simp [buildRows, ih]

theorem buildRows_getD (e : EventData) (cfs : List CFEntry) (pay : Bool)
    (regs : List Registration) (n i : Nat) (h : i < regs.length) :
    (buildRows e cfs pay n regs).getD i []
      = buildRow e cfs pay (n + i) (regs.getD i default) := by
  induction regs generalizing n i with
  | nil => simp at h
  | cons r rs ih =>
    cases i with
    | zero => rfl
    | succ i =>
      simp only [buildRows, List.getD_cons_succ]
      rw [ih (n + 1) i (by simpa using h)]
      congr 1
      omega

theorem buildRowOk_length (e : EventData) (cfs : List CFEntry) (pay : Bool)
    (i : Nat) (r : Registration) :
    (buildRowOk e cfs pay i r).length
      = 12 + cfs.length + (if pay then 3 else 0) + 1 := by
  simp [buildRowOk, coreCells_length, payCells_length]
  omega

theorem errorRow_length (cfs : List CFEntry) (pay : Bool) (i : Nat)
    (r : Registration) :
    (errorRow cfs pay i r).length
      = 10 + cfs.length + (if pay then 3 else 0) + 1 := by
  cases pay <;> simp [errorRow] <;> omega

theorem prepareSheetData_headers (e : EventData) (regs : List Registration)
    (h : regs ≠ []) :
    (prepareSheetData e regs).headers
      = coreHeaders ++ (validCFs e).map cfLabel
        ++ (if paymentRelevant e regs then payHeaders else []) ++ ["Notes"] := by
  cases regs with
  | nil => exact absurd rfl h
  | cons r rs =>
    have hv : ∀ f ∈ validCFs e, cfValid f = true := fun f hf =>
      mem_validCFs_valid hf
    simp [prepareSheetData, cfHeadersFrom_of_valid _ _ hv]

theorem prepareSheetData_rows (e : EventData) (regs : List Registration)
    (h : regs ≠ []) :
    (prepareSheetData e regs).rows
      = buildRows e (validCFs e) (paymentRelevant e regs) 0 regs := by
  cases regs with
  | nil => exact absurd rfl h
  | cons r rs => simp [prepareSheetData]

theorem prepareSheetData_headers_length (e : EventData)
    (regs : List Registration) (h : regs ≠ []) :
    (prepareSheetData e regs).headers.length
      = 12 + (validCFs e).length
        + (if paymentRelevant e regs then 3 else 0) + 1 := by
  rw [prepareSheetData_headers e regs h]
  cases hp : paymentRelevant e regs <;>
    simp [coreHeaders, payHeaders] <;> omega

/-! ### Claim C1 -/

/-- C1 (amended): for every non-empty registrations list, the header count is
the 12 fixed columns plus one per valid custom field, plus 3 payment columns
when payment is relevant, plus the trailing Notes column; a row whose
registration has name and email present has exactly `headers.length` cells,
while an error-placeholder row falls short by exactly 2 cells. -/
theorem prepare_header_and_row_lengths (e : EventData)
    (regs : List Registration) (i : Nat) (hi : i < regs.length) :
    (prepareSheetData e regs).headers.length
        = 12 + (validCFs e).length
          + (if paymentRelevant e regs then 3 else 0) + 1
      ∧ ((prepareSheetData e regs).rows.getD i []).length
          + (if okReg (regs.getD i default) then 0 else 2)
        = (prepareSheetData e regs).headers.length := by
  have hne : regs ≠ [] := by
    intro hcon; subst hcon; simp at hi
  refine ⟨prepareSheetData_headers_length e regs hne, ?_⟩
  rw [prepareSheetData_rows e regs hne, prepareSheetData_headers_length e regs hne,
    buildRows_getD e _ _ regs 0 i hi]
  unfold buildRow
  cases hok : okReg (regs.getD i default) with
  | true =>
    simp [buildRowOk_length]
    try omega
  | false =>
    simp [errorRow_length]
    try omega

def evW1 : EventData := { title := some "Tech Fest" }

def regW1 : Registration :=
  { participant_name := some "Asha", participant_email := some "asha@example.com" }

theorem prepare_header_and_row_lengths_witness :
    0 < [regW1].length
      ∧ ((prepareSheetData evW1 [regW1]).headers.length
            = 12 + (validCFs evW1).length
              + (if paymentRelevant evW1 [regW1] then 3 else 0) + 1
          ∧ ((prepareSheetData evW1 [regW1]).rows.getD 0 []).length
              + (if okReg ([regW1].getD 0 default) then 0 else 2)
            = (prepareSheetData evW1 [regW1]).headers.length) :=
  ⟨by decide, prepare_header_and_row_lengths evW1 [regW1] 0 (by decide)⟩

def evX1 : EventData := { title := some "Hack Night" }

def regX1 : Registration := { participant_email := some "no.name@example.com" }

/-- C1 counterexample: with a registration whose participant name is missing,
the per-row catch emits a row with two fewer cells than the headers, so not
every returned row has `headers.length` cells. -/
theorem prepare_row_length_counterexample :
    ((prepareSheetData evX1 [regX1]).rows.getD 0 []).length
      ≠ (prepareSheetData evX1 [regX1]).headers.length := by decide

/-! ### Claim C2 -/

/-- C2 (amended): a per-row failure does not abort the batch: the failing
registration yields the error-placeholder row — which has `headers.length - 2`
cells, its fixed block being 10 cells against 12 fixed headers — and every
registration with name and email present still yields its normal row. -/
theorem prepare_error_row_isolation (e : EventData) (regs : List Registration)
    (i j : Nat) (hi : i < regs.length) (hj : j < regs.length)
    (hbad : okReg (regs.getD i default) = false)
    (hok : okReg (regs.getD j default) = true) :
    (prepareSheetData e regs).rows.length = regs.length
    ∧ (prepareSheetData e regs).rows.getD i []
        = errorRow (validCFs e) (paymentRelevant e regs) i (regs.getD i default)
    ∧ ((prepareSheetData e regs).rows.getD i []).length + 2
        = (prepareSheetData e regs).headers.length
    ∧ (prepareSheetData e regs).rows.getD j []
        = buildRowOk e (validCFs e) (paymentRelevant e regs) j
            (regs.getD j default) := by
  have hne : regs ≠ [] := by
    intro hcon; subst hcon; simp at hi
  rw [prepareSheetData_rows e regs hne, prepareSheetData_headers_length e regs hne,
    buildRows_getD e _ _ regs 0 i hi, buildRows_getD e _ _ regs 0 j hj,
    buildRows_length]
  refine ⟨rfl, ?_, ?_, ?_⟩
  · simp only [buildRow, Nat.zero_add, hbad, Bool.false_eq_true, reduceIte]
  · simp only [buildRow, Nat.zero_add, hbad, Bool.false_eq_true, reduceIte]
    rw [errorRow_length]
    omega
  · simp only [buildRow, Nat.zero_add, hok, reduceIte]

def evW2 : EventData := { title := some "Robo Rally" }

def regW2good : Registration :=
  { participant_name := some "Bela", participant_email := some "bela@example.com" }

def regW2bad : Registration := { participant_name := some "Nameless" }

theorem prepare_error_row_isolation_witness :
    1 < [regW2good, regW2bad].length
      ∧ 0 < [regW2good, regW2bad].length
      ∧ okReg ([regW2good, regW2bad].getD 1 default) = false
      ∧ okReg ([regW2good, regW2bad].getD 0 default) = true
      ∧ ((prepareSheetData evW2 [regW2good, regW2bad]).rows.length
            = [regW2good, regW2bad].length
        ∧ (prepareSheetData evW2 [regW2good, regW2bad]).rows.getD 1 []
            = errorRow (validCFs evW2) (paymentRelevant evW2 [regW2good, regW2bad]) 1
                ([regW2good, regW2bad].getD 1 default)
        ∧ ((prepareSheetData evW2 [regW2good, regW2bad]).rows.getD 1 []).length + 2
            = (prepareSheetData evW2 [regW2good, regW2bad]).headers.length
        ∧ (prepareSheetData evW2 [regW2good, regW2bad]).rows.getD 0 []
            = buildRowOk evW2 (validCFs evW2)
                (paymentRelevant evW2 [regW2good, regW2bad]) 0
                ([regW2good, regW2bad].getD 0 default)) :=
  ⟨by decide, by decide, by decide, by decide,
    prepare_error_row_isolation evW2 [regW2good, regW2bad] 1 0 (by decide)
      (by decide) (by decide) (by decide)⟩

def evX2 : EventData := { title := some "Quiz Bowl", requires_payment := true }

def regX2good : Registration :=
  { participant_name := some "Card", participant_email := some "c@d.e" }

def regX2bad : Registration := { participant_email := some "only.email@d.e" }

/-- C2 counterexample: the error-placeholder row does not have
`headers.length` cells (it has two fewer). -/
theorem prepare_error_row_length_counterexample :
    ((prepareSheetData evX2 [regX2good, regX2bad]).rows.getD 1 []).length
      ≠ (prepareSheetData evX2 [regX2good, regX2bad]).headers.length := by
  decide

/-! ### Claim C3 -/

/-- C3: with an arbitrary list as `custom_fields` and any non-empty list of
registration records, the builder returns normally (no throw); the
custom-field header block consists of the labels of exactly those entries
with non-empty string `id` and `label`, so the header count reflects only the
valid definitions. -/
theorem prepare_custom_field_filtering (e : EventData) (cfs : List CFEntry)
    (regs : List Registration) (hcf : e.custom_fields = some cfs)
    (hne : regs ≠ []) :
    prepareSheetDataE (some e) (RegsArg.arr regs)
        = Except.ok (prepareSheetData e regs)
    ∧ (prepareSheetData e regs).headers
        = coreHeaders ++ (cfs.filter cfValid).map cfLabel
          ++ (if paymentRelevant e regs then payHeaders else []) ++ ["Notes"]
    ∧ (prepareSheetData e regs).headers.length
        = 12 + (cfs.filter cfValid).length
          + (if paymentRelevant e regs then 3 else 0) + 1 := by
  have hvc : validCFs e = cfs.filter cfValid := by simp [validCFs, hcf]
  refine ⟨rfl, ?_, ?_⟩
  · rw [prepareSheetData_headers e regs hne, hvc]
  · rw [prepareSheetData_headers_length e regs hne, hvc]

def evW3 : EventData :=
  { title := some "Art Jam",
    custom_fields := some [CFEntry.nonObj, CFEntry.obj none (some "Medium"),
      CFEntry.obj (some "size") none, CFEntry.obj (some "size") (some "Size")] }

def regW3 : Registration :=
  { participant_name := some "Devi", participant_email := some "devi@example.com" }

theorem prepare_custom_field_filtering_witness :
    evW3.custom_fields
        = some [CFEntry.nonObj, CFEntry.obj none (some "Medium"),
            CFEntry.obj (some "size") none, CFEntry.obj (some "size") (some "Size")]
      ∧ ([regW3] : List Registration) ≠ []
      ∧ (prepareSheetDataE (some evW3) (RegsArg.arr [regW3])
            = Except.ok (prepareSheetData evW3 [regW3])
        ∧ (prepareSheetData evW3 [regW3]).headers
            = coreHeaders
              ++ ([CFEntry.nonObj, CFEntry.obj none (some "Medium"),
                    CFEntry.obj (some "size") none,
                    CFEntry.obj (some "size") (some "Size")].filter cfValid).map cfLabel
              ++ (if paymentRelevant evW3 [regW3] then payHeaders else []) ++ ["Notes"]
        ∧ (prepareSheetData evW3 [regW3]).headers.length
            = 12 + ([CFEntry.nonObj, CFEntry.obj none (some "Medium"),
                      CFEntry.obj (some "size") none,
                      CFEntry.obj (some "size") (some "Size")].filter cfValid).length
              + (if paymentRelevant evW3 [regW3] then 3 else 0) + 1) :=
  ⟨rfl, by decide,
    prepare_custom_field_filtering evW3 _ [regW3] rfl (by decide)⟩

/-! ### Claim C4 -/

/-- C4: the sheet-data builder is deterministic: two calls on equal inputs
return equal `{headers, rows}` results. -/
theorem prepare_deterministic (e₁ e₂ : EventData)
    (r₁ r₂ : List Registration) (he : e₁ = e₂) (hr : r₁ = r₂) :
    prepareSheetData e₁ r₁ = prepareSheetData e₂ r₂ := by
  rw [he, hr]

def evW4 : EventData :=
  { title := some "Film Night", requires_payment := true,
    custom_fields := some [CFEntry.obj (some "snack") (some "Snack")] }

def regW4 : Registration :=
  { participant_name := some "Esha", participant_email := some "esha@example.com",
    payment_status := some "verified" }

theorem prepare_deterministic_witness :
    evW4 = evW4 ∧ ([regW4] : List Registration) = [regW4]
      ∧ prepareSheetData evW4 [regW4] = prepareSheetData evW4 [regW4] :=
  ⟨rfl, rfl, prepare_deterministic evW4 evW4 [regW4] [regW4] rfl rfl⟩

/-! ### Claim C6 -/

/-- The conditions under which the pre-remote prefix of `createEventSheet`
accepts its inputs: the structural conditions of the claim plus the strict
custom-field validation of lines 42-59. -/
def createAcceptSpec (ev : Option EventData) (regs : RegsArg)
    (isAutoCreate : Bool) : Bool :=
  structuralInputsOk ev regs isAutoCreate &&
    match ev with
    | some e => cfStrictOk e
    | none => true

/-- C6 (amended): the pre-remote validation of `createEventSheet` passes
exactly when the structural inputs are present (event with truthy title,
registrations an array, non-empty unless auto-create) and, in addition, every
entry of a present `custom_fields` array is an object with non-empty string
`id` and `label`; an invalid custom-field definition also throws before any
remote call. -/
theorem create_validate_ok_iff (ev : Option EventData) (regs : RegsArg)
    (auto : Bool) :
    createEventSheetValidate ev regs auto = Except.ok ()
      ↔ createAcceptSpec ev regs auto = true := by
  cases ev with
  | none =>
    simp [createEventSheetValidate, createAcceptSpec, structuralInputsOk]
  | some e =>
    cases ht : truthy e.title with
    | false =>
      cases regs <;>
        simp [createEventSheetValidate, createAcceptSpec, structuralInputsOk, ht]
    | true =>
      cases regs with
      | missing =>
        simp [createEventSheetValidate, createAcceptSpec, structuralInputsOk, ht]
      | notArray =>
        simp [createEventSheetValidate, createAcceptSpec, structuralInputsOk, ht]
      | arr rs =>
        cases he : rs.isEmpty <;> cases auto <;> cases hcf : cfStrictOk e <;>
          simp [createEventSheetValidate, createAcceptSpec, structuralInputsOk,
            ht, he, hcf]

def evX6 : EventData :=
  { title := some "Demo Day", custom_fields := some [CFEntry.nonObj] }

def regX6 : Registration :=
  { participant_name := some "Farid", participant_email := some "farid@example.com" }

/-- C6 counterexample: an event with present title and a non-empty
registrations array — no structural input missing — still makes the
pre-remote validation throw, because its `custom_fields` contains a non-object
entry. -/
theorem create_validate_counterexample :
    createEventSheetValidate (some evX6) (RegsArg.arr [regX6]) false
        ≠ Except.ok ()
      ∧ structuralInputsOk (some evX6) (RegsArg.arr [regX6]) false = true := by
  constructor
  · intro h
    simp [createEventSheetValidate, evX6, cfStrictOk, cfValid, truthy] at h
  · rfl

/-! ### Claim C7 -/

/-- C7: for every input accepted by `createEventSheet`, the requested tab set
contains Registrations and Dashboard, and contains Team Members exactly when
some registration carries a non-empty `team_members` list or the event's
participation mode permits teams. -/
theorem requested_tabs_spec (e : EventData) (rs : List Registration)
    (auto : Bool)
    (hacc : createEventSheetValidate (some e) (RegsArg.arr rs) auto
      = Except.ok ()) :
    "Registrations" ∈ requestedSheetTitles e rs
    ∧ "Dashboard" ∈ requestedSheetTitles e rs
    ∧ ("Team Members" ∈ requestedSheetTitles e rs
        ↔ (hasTeamRegistrations rs = true ∨ supportsTeamRegistration e = true)) := by
  unfold requestedSheetTitles
  cases hs : supportsTeamRegistration e <;>
    cases htm : hasTeamRegistrations rs <;>
      simp [hs, htm]

def evW7 : EventData :=
  { title := some "CTF Finals", participation_type := some "team" }

def regW7 : Registration :=
  { participant_name := some "Gita", participant_email := some "gita@example.com" }

theorem requested_tabs_spec_witness :
    createEventSheetValidate (some evW7) (RegsArg.arr [regW7]) false
        = Except.ok ()
      ∧ ("Registrations" ∈ requestedSheetTitles evW7 [regW7]
        ∧ "Dashboard" ∈ requestedSheetTitles evW7 [regW7]
        ∧ ("Team Members" ∈ requestedSheetTitles evW7 [regW7]
            ↔ (hasTeamRegistrations [regW7] = true
                ∨ supportsTeamRegistration evW7 = true))) :=
  ⟨rfl, requested_tabs_spec evW7 [regW7] false rfl⟩

/-! ### Row-cell extraction lemmas -/

theorem getD_mem_of_lt {α : Type} (l : List α) (k : Nat) (d : α)
    (h : k < l.length) : l.getD k d ∈ l := by
  induction l generalizing k with
  | nil => simp at h
  | cons x t ih =>
    cases k with
    | zero => simp [List.getD_cons_zero]
    | succ k =>
      simp only [List.getD_cons_succ]
      exact List.mem_cons_of_mem x (ih k (by simpa using h))

theorem cfCell_of_valid (r : Registration) (f : CFEntry)
    (h : cfValid f = true) : cfCell r f = cfDisplay (lookupCF r (cfId f)) := by
  cases f with
  | nonObj => simp [cfValid] at h
  | obj i l =>
    cases i with
    | none => simp [cfValid, truthy] at h
    | some fid =>
      have hfid : fid ≠ "" := by
        simp [cfValid, truthy] at h
        simpa using h.1
      simp [cfCell, cfId, hfid]

theorem cfDisplay_eq_amended (v : Option CFValue) :
    cfDisplay v = cfRenderAmended v := by
  cases v with
  | none => rfl
  | some c => cases c <;> rfl

theorem buildRowOk_getD_cf (e : EventData) (cfs : List CFEntry) (pay : Bool)
    (r : Registration) (i k : Nat) (hk : k < cfs.length) :
    (buildRowOk e cfs pay i r).getD (12 + k) (Cell.str "")
      = Cell.str (cfCell r (cfs.getD k default)) := by
  unfold buildRowOk
  simp only [List.append_assoc]
  rw [show 12 + k = (coreCells i r).length + k from by rw [coreCells_length]]
  rw [getD_append_right,
    getD_append_left _ _ _ _ (by simpa using hk)]
  exact getD_map_of_lt _ cfs k _ default hk

theorem buildRowOk_getD_pay (e : EventData) (cfs : List CFEntry)
    (r : Registration) (i m : Nat) :
    (buildRowOk e cfs true i r).getD (12 + cfs.length + m) (Cell.str "")
      = (payCells e true r ++ [Cell.str ""]).getD m (Cell.str "") := by
  unfold buildRowOk
  simp only [List.append_assoc]
  rw [show 12 + cfs.length + m = (coreCells i r).length + (cfs.length + m) from by
    rw [coreCells_length]; omega]
  rw [getD_append_right]
  rw [show cfs.length + m
      = (cfs.map fun f => Cell.str (cfCell r f)).length + m from by
    rw [List.length_map]]
  rw [getD_append_right]

/-! ### Claim C8 -/

/-- C8 (amended): in a normally processed row, the cell for the k-th valid
custom field renders the looked-up value: "N/A" when the value is absent,
null, or the empty string — and also when it is an empty list; a non-empty
list renders as its comma-joined elements; any other string renders itself. -/
theorem custom_field_cell_rendering (e : EventData) (regs : List Registration)
    (i k : Nat) (hi : i < regs.length)
    (hok : okReg (regs.getD i default) = true)
    (hk : k < (validCFs e).length) :
    ((prepareSheetData e regs).rows.getD i []).getD (12 + k) (Cell.str "")
      = Cell.str (cfRenderAmended
          (lookupCF (regs.getD i default)
            (cfId ((validCFs e).getD k default)))) := by
  have hne : regs ≠ [] := by
    intro hcon; subst hcon; simp at hi
  rw [prepareSheetData_rows e regs hne, buildRows_getD e _ _ regs 0 i hi]
  simp only [buildRow, Nat.zero_add, hok, reduceIte]
  rw [buildRowOk_getD_cf e _ _ _ i k hk]
  have hv : cfValid ((validCFs e).getD k default) = true :=
    mem_validCFs_valid (getD_mem_of_lt _ k default hk)
  rw [cfCell_of_valid _ _ hv, cfDisplay_eq_amended]

def evW8 : EventData :=
  { title := some "Game Jam",
    custom_fields := some [CFEntry.obj (some "engine") (some "Engine")] }

def regW8 : Registration :=
  { participant_name := some "Hema", participant_email := some "hema@example.com",
    additional_info := some
      ({ custom_fields := some [("engine", CFValue.vList ["Godot", "Love2D"])] }
        : AdditionalInfo) }

theorem custom_field_cell_rendering_witness :
    0 < [regW8].length
      ∧ okReg ([regW8].getD 0 default) = true
      ∧ 0 < (validCFs evW8).length
      ∧ ((prepareSheetData evW8 [regW8]).rows.getD 0 []).getD (12 + 0) (Cell.str "")
          = Cell.str (cfRenderAmended
              (lookupCF ([regW8].getD 0 default)
                (cfId ((validCFs evW8).getD 0 default)))) :=
  ⟨by decide, by decide, by decide,
    custom_field_cell_rendering evW8 [regW8] 0 0 (by decide) (by decide)
      (by decide)⟩

def evX8 : EventData :=
  { title := some "Merch Day",
    custom_fields := some [CFEntry.obj (some "shirt") (some "Shirt")] }

def regX8 : Registration :=
  { participant_name := some "Indu", participant_email := some "indu@example.com",
    additional_info := some
      ({ custom_fields := some [("shirt", CFValue.vList [])] } : AdditionalInfo) }

/-- C8 counterexample: a list-valued custom field that is an empty list
renders "N/A", not the comma-joined text of its (zero) elements, which would
be the empty string. -/
theorem custom_field_cell_claim_counterexample :
    lookupCF regX8 "shirt" = some (CFValue.vList [])
      ∧ ((prepareSheetData evX8 [regX8]).rows.getD 0 []).getD 12 (Cell.str "")
          ≠ Cell.str (cfRenderClaim (some (CFValue.vList []))) := by
  constructor
  · rfl
  · decide

/-! ### Claim C9 -/

theorem payVerifiedCell_verified (r : Registration)
    (h : r.payment_status = some "verified") : payVerifiedCell r = "Yes" := by
  simp [payVerifiedCell, h]

theorem payAmountCell_of_amount (e : EventData) (r : Registration) (a : String)
    (h : r.payment_amount = some a) (ha : a ≠ "") :
    payAmountCell e r = "₹" ++ a := by
  simp [payAmountCell, h, ha]

/-- C9: when the event requires payment, for a normally processed
registration with `payment_status = "verified"` and a non-empty payment
amount, the headers include the three payment columns, the payment-verified
cell of that row shows the paid marker "Yes", and the payment-amount cell is
the amount prefixed with the currency symbol. -/
theorem payment_columns_and_cells (e : EventData) (regs : List Registration)
    (i : Nat) (a : String) (hreq : e.requires_payment = true)
    (hi : i < regs.length) (hok : okReg (regs.getD i default) = true)
    (hst : (regs.getD i default).payment_status = some "verified")
    (hamt : (regs.getD i default).payment_amount = some a) (ha : a ≠ "") :
    "Payment Verified" ∈ (prepareSheetData e regs).headers
    ∧ "Payment Amount" ∈ (prepareSheetData e regs).headers
    ∧ "Payment Screenshot" ∈ (prepareSheetData e regs).headers
    ∧ ((prepareSheetData e regs).rows.getD i []).getD
        (12 + (validCFs e).length) (Cell.str "") = Cell.str "Yes"
    ∧ ((prepareSheetData e regs).rows.getD i []).getD
        (13 + (validCFs e).length) (Cell.str "") = Cell.str ("₹" ++ a) := by
  have hne : regs ≠ [] := by
    intro hcon; subst hcon; simp at hi
  have hpay : paymentRelevant e regs = true := by
    simp [paymentRelevant, paymentRequiredFlag, hreq]
  have hrow : (prepareSheetData e regs).rows.getD i []
      = buildRowOk e (validCFs e) true i (regs.getD i default) := by
    rw [prepareSheetData_rows e regs hne, buildRows_getD e _ _ regs 0 i hi, hpay]
    simp only [buildRow, Nat.zero_add, hok, reduceIte]
  have hhd := prepareSheetData_headers e regs hne
  rw [hpay] at hhd
  refine ⟨?_, ?_, ?_, ?_, ?_⟩
  · rw [hhd]; simp [payHeaders]
  · rw [hhd]; simp [payHeaders]
  · rw [hhd]; simp [payHeaders]
  · rw [hrow,
      show 12 + (validCFs e).length = 12 + (validCFs e).length + 0 from rfl,
      buildRowOk_getD_pay]
    simp only [payCells, reduceIte, List.cons_append, List.getD_cons_zero]
    rw [payVerifiedCell_verified _ hst]
  · rw [hrow,
      show 13 + (validCFs e).length = 12 + (validCFs e).length + 1 from by omega,
      buildRowOk_getD_pay]
    simp only [payCells, reduceIte, List.cons_append, List.getD_cons_succ,
      List.getD_cons_zero]
    rw [payAmountCell_of_amount e _ a hamt ha]

def evW9 : EventData := { title := some "Pro Night", requires_payment := true }

def regW9 : Registration :=
  { participant_name := some "Jay", participant_email := some "jay@example.com",
    payment_status := some "verified", payment_amount := some "500" }

theorem payment_columns_and_cells_witness :
    evW9.requires_payment = true
      ∧ 0 < [regW9].length
      ∧ okReg ([regW9].getD 0 default) = true
      ∧ ([regW9].getD 0 default).payment_status = some "verified"
      ∧ ([regW9].getD 0 default).payment_amount = some "500"
      ∧ ("500" : String) ≠ ""
      ∧ ("Payment Verified" ∈ (prepareSheetData evW9 [regW9]).headers
        ∧ "Payment Amount" ∈ (prepareSheetData evW9 [regW9]).headers
        ∧ "Payment Screenshot" ∈ (prepareSheetData evW9 [regW9]).headers
        ∧ ((prepareSheetData evW9 [regW9]).rows.getD 0 []).getD
            (12 + (validCFs evW9).length) (Cell.str "") = Cell.str "Yes"
        ∧ ((prepareSheetData evW9 [regW9]).rows.getD 0 []).getD
            (13 + (validCFs evW9).length) (Cell.str "")
          = Cell.str ("₹" ++ "500")) :=
  ⟨rfl, by decide, by decide, rfl, rfl, by decide,
    payment_columns_and_cells evW9 [regW9] 0 "500" rfl (by decide) (by decide)
      rfl rfl (by decide)⟩

/-! ### Claim C10 -/

/-- C10: the empty-registrations header path keeps every entry with a truthy
label and never looks at the id: an entry with no id but a non-empty label
contributes its label to the headers when registrations is empty, although
the same entry is excluded from the valid custom fields used whenever
registrations is non-empty. -/
theorem empty_path_label_only (e : EventData) (cfs : List CFEntry)
    (f : CFEntry) (L : String) (hcf : e.custom_fields = some cfs)
    (hf : f = CFEntry.obj none (some L)) (hL : L ≠ "") (hmem : f ∈ cfs) :
    L ∈ (prepareSheetData e []).headers ∧ f ∉ validCFs e := by
  constructor
  · have hkeep : emptyKeepLabel f = some L := by
      rw [hf]; simp [emptyKeepLabel, hL]
    have hmf : L ∈ cfs.filterMap emptyKeepLabel :=
      List.mem_filterMap.mpr ⟨f, hmem, hkeep⟩
    simp only [prepareSheetData, List.isEmpty_nil, reduceIte, emptyHeaders, hcf]
    simp [hmf]
  · intro hmemv
    have hv := mem_validCFs_valid hmemv
    rw [hf] at hv
    simp [cfValid, truthy] at hv

def evW10 : EventData :=
  { title := some "Poetry Slam",
    custom_fields := some [CFEntry.obj none (some "Tee Size")] }

theorem empty_path_label_only_witness :
    evW10.custom_fields = some [CFEntry.obj none (some "Tee Size")]
      ∧ CFEntry.obj none (some "Tee Size")
          = CFEntry.obj none (some "Tee Size")
      ∧ ("Tee Size" : String) ≠ ""
      ∧ CFEntry.obj none (some "Tee Size")
          ∈ [CFEntry.obj none (some "Tee Size")]
      ∧ ("Tee Size" ∈ (prepareSheetData evW10 []).headers
        ∧ CFEntry.obj none (some "Tee Size") ∉ validCFs evW10) :=
  ⟨rfl, rfl, by decide, by decide,
    empty_path_label_only evW10 [CFEntry.obj none (some "Tee Size")]
      (CFEntry.obj none (some "Tee Size")) "Tee Size" rfl rfl (by decide)
      (by decide)⟩

/-! ### Grid lemmas for the update operation -/

theorem blankTo_length (n : Nat) (r : List Cell) :
    (blankTo n r).length = r.length := by
  induction r generalizing n with
  | nil => cases n <;> rfl
  | cons c cs ih =>
    cases n with
    | zero => rfl
    | succ n => simp [blankTo, ih]

theorem blankTo_take (n : Nat) (r : List Cell) :
    (blankTo n r).take n = List.replicate (min n r.length) (Cell.str "") := by
  induction r generalizing n with
  | nil => cases n <;> simp [blankTo]
  | cons c cs ih =>
    cases n with
    | zero => simp [blankTo]
    | succ n => simp [blankTo, Nat.succ_min_succ, List.replicate_succ, ih]

theorem clearFromRowIdx_getD (g : Grid) (n k : Nat) :
    (clearFromRowIdx n g).getD k []
      = if k < n then g.getD k [] else blankTo 26 (g.getD k []) := by
  induction g generalizing n k with
  | nil => simp [clearFromRowIdx, blankTo]
  | cons r rs ih =>
    cases n with
    | zero =>
      cases k with
      | zero => rfl
      | succ k =>
        simp only [clearFromRowIdx, List.getD_cons_succ]
        rw [ih 0 k]
        simp
    | succ n =>
      cases k with
      | zero => simp [clearFromRowIdx, List.getD_cons_zero]
      | succ k =>
        simp only [clearFromRowIdx, List.getD_cons_succ]
        rw [ih n k]
        simp [Nat.succ_lt_succ_iff]

theorem overlayGrid_getD (vals g : Grid) (k : Nat) :
    (overlayGrid g vals).getD k []
      = if k < vals.length then overlayRow (g.getD k []) (vals.getD k [])
        else g.getD k [] := by
  induction vals generalizing g k with
  | nil => simp [overlayGrid]
  | cons v vs ih =>
    cases g with
    | nil =>
      cases k with
      | zero => simp [overlayGrid, overlayRow]
      | succ k =>
        simp only [overlayGrid, List.getD_cons_succ]
        rw [ih [] k]
        simp [Nat.succ_lt_succ_iff]
    | cons r rs =>
      cases k with
      | zero => simp [overlayGrid, List.getD_cons_zero]
      | succ k =>
        simp only [overlayGrid, List.getD_cons_succ]
        rw [ih rs k]
        simp [Nat.succ_lt_succ_iff]

theorem overlayRow_take (old upd : List Cell) :
    (overlayRow old upd).take upd.length = upd := by
  unfold overlayRow
  exact take_len_append upd _

theorem overlayRow_eq_iff (old upd : List Cell) :
    overlayRow old upd = old ↔ old.take upd.length = upd := by
  unfold overlayRow
  constructor
  · intro h
    conv_lhs => rw [← h]
    exact take_len_append upd _
  · intro h
    conv_rhs => rw [← List.take_append_drop upd.length old]
    rw [h]

theorem allDataOf_length (e : EventData) (regs : List Registration) :
    (allDataOf e regs).length = 3 + (prepareSheetData e regs).rows.length := by
  simp [allDataOf]
  omega

theorem allDataOf_getD_data (e : EventData) (regs : List Registration)
    (i : Nat) :
    (allDataOf e regs).getD (3 + i) []
      = (prepareSheetData e regs).rows.getD i [] := by
  simp [allDataOf, show 3 + i = (i + 1 + 1) + 1 from by omega,
    List.getD_cons_succ]

/-! ### Claim C5 -/

/-- C5 (amended): `updateEventSheet` clears the data region (columns A-Z from
row 4 down) and rewrites rows 1-3 with the title, blank and header block built
from the given event, then writes the new data rows from row 4. Consequently:
the title cell and header row hold the canonical values built from the event
(so row 1 and the header row are unchanged exactly when they already held
those values); the blank row 2 is untouched; each new data row appears
exactly; and rows past the new data block are blank in columns A-Z. -/
theorem update_grid_frame (g : Grid) (e : EventData) (regs : List Registration)
    (i j : Nat) (hi : i < (prepareSheetData e regs).rows.length)
    (hj : 3 + (prepareSheetData e regs).rows.length ≤ j) :
    ((updateEventSheetGrid g e regs).getD 0 []).take 1
        = [Cell.str (titleString e)]
    ∧ (updateEventSheetGrid g e regs).getD 1 [] = g.getD 1 []
    ∧ ((updateEventSheetGrid g e regs).getD 0 [] = g.getD 0 []
        ↔ (g.getD 0 []).take 1 = [Cell.str (titleString e)])
    ∧ ((updateEventSheetGrid g e regs).getD 2 []).take
        (prepareSheetData e regs).headers.length
      = (prepareSheetData e regs).headers.map Cell.str
    ∧ ((updateEventSheetGrid g e regs).getD 2 [] = g.getD 2 []
        ↔ (g.getD 2 []).take (prepareSheetData e regs).headers.length
            = (prepareSheetData e regs).headers.map Cell.str)
    ∧ ((updateEventSheetGrid g e regs).getD (3 + i) []).take
        ((prepareSheetData e regs).rows.getD i []).length
      = (prepareSheetData e regs).rows.getD i []
    ∧ ((updateEventSheetGrid g e regs).getD j []).take 26
      = List.replicate (min 26 ((g.getD j []).length)) (Cell.str "") := by
  have hlen : (allDataOf e regs).length
      = 3 + (prepareSheetData e regs).rows.length := allDataOf_length e regs
  have hu : ∀ k, (updateEventSheetGrid g e regs).getD k []
      = if k < (allDataOf e regs).length then
          overlayRow ((clearDataRegion g).getD k []) ((allDataOf e regs).getD k [])
        else (clearDataRegion g).getD k [] := by
    intro k
    exact overlayGrid_getD (allDataOf e regs) (clearDataRegion g) k
  have hclr : ∀ k, (clearDataRegion g).getD k []
      = if k < 3 then g.getD k [] else blankTo 26 (g.getD k []) := by
    intro k
    exact clearFromRowIdx_getD g 3 k
  have h0 : (updateEventSheetGrid g e regs).getD 0 []
      = overlayRow (g.getD 0 []) [Cell.str (titleString e)] := by
    rw [hu 0, if_pos (by omega), hclr 0, if_pos (by omega)]
    rfl
  have h1 : (updateEventSheetGrid g e regs).getD 1 []
      = overlayRow (g.getD 1 []) [] := by
    rw [hu 1, if_pos (by omega), hclr 1, if_pos (by omega)]
    rfl
  have h2 : (updateEventSheetGrid g e regs).getD 2 []
      = overlayRow (g.getD 2 [])
          ((prepareSheetData e regs).headers.map Cell.str) := by
    rw [hu 2, if_pos (by omega), hclr 2, if_pos (by omega)]
    rfl
  refine ⟨?_, ?_, ?_, ?_, ?_, ?_, ?_⟩
  · rw [h0]
    simpa using overlayRow_take (g.getD 0 []) [Cell.str (titleString e)]
  · rw [h1]
    simp [overlayRow]
  · rw [h0]
    simpa using overlayRow_eq_iff (g.getD 0 []) [Cell.str (titleString e)]
  · rw [h2]
    simpa using
      overlayRow_take (g.getD 2 [])
        ((prepareSheetData e regs).headers.map Cell.str)
  · rw [h2]
    simpa using
      overlayRow_eq_iff (g.getD 2 [])
        ((prepareSheetData e regs).headers.map Cell.str)
  · rw [hu (3 + i), if_pos (by omega), allDataOf_getD_data]
    exact overlayRow_take _ _
  · rw [hu j, if_neg (by omega), hclr j, if_neg (by omega)]
    rw [blankTo_take]

def gX5 : Grid :=
  [[Cell.str "Old Event - Event Registrations"], [], [Cell.str "S.No."]]

def evX5 : EventData := { title := some "New Event" }

def regX5 : Registration :=
  { participant_name := some "Kiran", participant_email := some "kiran@example.com" }

/-- C5 counterexample: `updateEventSheet` rewrites the title row from the
given event, so a sheet whose title row held a different title has row 1
changed by the call. -/
theorem update_grid_title_counterexample :
    (updateEventSheetGrid gX5 evX5 [regX5]).getD 0 [] ≠ gX5.getD 0 [] := by
  decide

def gW5 : Grid :=
  [[Cell.str "Chess Open - Event Registrations"], [],
   [Cell.str "S.No.", Cell.str "Name"], [Cell.str "stale"], [Cell.str "stale"]]

def evW5 : EventData := { title := some "Chess Open" }

def regW5 : Registration :=
  { participant_name := some "Lata", participant_email := some "lata@example.com" }

theorem update_grid_frame_witness :
    0 < (prepareSheetData evW5 [regW5]).rows.length
      ∧ 3 + (prepareSheetData evW5 [regW5]).rows.length ≤ 4
      ∧ (((updateEventSheetGrid gW5 evW5 [regW5]).getD 0 []).take 1
            = [Cell.str (titleString evW5)]
        ∧ (updateEventSheetGrid gW5 evW5 [regW5]).getD 1 [] = gW5.getD 1 []
        ∧ ((updateEventSheetGrid gW5 evW5 [regW5]).getD 0 [] = gW5.getD 0 []
            ↔ (gW5.getD 0 []).take 1 = [Cell.str (titleString evW5)])
        ∧ ((updateEventSheetGrid gW5 evW5 [regW5]).getD 2 []).take
            (prepareSheetData evW5 [regW5]).headers.length
          = (prepareSheetData evW5 [regW5]).headers.map Cell.str
        ∧ ((updateEventSheetGrid gW5 evW5 [regW5]).getD 2 [] = gW5.getD 2 []
            ↔ (gW5.getD 2 []).take (prepareSheetData evW5 [regW5]).headers.length
                = (prepareSheetData evW5 [regW5]).headers.map Cell.str)
        ∧ ((updateEventSheetGrid gW5 evW5 [regW5]).getD (3 + 0) []).take
            ((prepareSheetData evW5 [regW5]).rows.getD 0 []).length
          = (prepareSheetData evW5 [regW5]).rows.getD 0 []
        ∧ ((updateEventSheetGrid gW5 evW5 [regW5]).getD 4 []).take 26
          = List.replicate (min 26 ((gW5.getD 4 []).length)) (Cell.str "")) :=
  ⟨by decide, by decide,
    update_grid_frame gW5 evW5 [regW5] 0 4 (by decide) (by decide)⟩

end GSheets
